import Mathlib

/-!
Shallow embedding of the checkpoint-resumption logic of
`examples/train_symbolic_example.py`:

* the checkpoint loader `load_checkpoint_for_resumption` (lines 399-453),
* the `ResumeTrainer` wrapper class (lines 456-501),
* the final checkpoint save performed by `main` (lines 694-705).

External collaborators (the torch serialisation layer, the generic
trainer produced by `get_trainer`, the filesystem) are out of scope of
the repository and appear here as explicit oracles passed in as
parameters.  Model and optimizer parameter states are abstracted to
plain natural-number tokens: the loader only moves them around, it
never inspects them.
-/

/-- Python exceptions relevant to checkpoint loading: a tensor
shape mismatch raised by `load_state_dict`, or any other error.  In
Python both derive from `Exception`. -/
inductive PyErr where
  | shapeMismatch
  | other (msg : String)
  deriving DecidableEq, Repr

/-- A checkpoint bundle as produced by `torch.save` and consumed by
`load_checkpoint_for_resumption`: exactly the dictionary keys the
loader reads.  A key that may be absent is an `Option`. -/
structure Checkpoint where
  model_state_dict : Option Nat
  optimizer_state_dict : Option Nat
  epoch : Option Nat
  loss : Option Nat
  deriving DecidableEq, Repr

/-- The mutable state the loader may touch: the parameters currently
held by the model and by the optimizer. -/
structure LoaderState where
  model : Nat
  optim : Nat
  deriving DecidableEq, Repr

/-- Oracle for the external torch layer: the behaviour of `torch.load`
at a given path, and of `model.load_state_dict` and
`optimizer.load_state_dict` on a given state dict.  Each may either
return a value or raise an exception. -/
structure TorchEnv where
  torch_load : String → Except PyErr Checkpoint
  model_load_state : Nat → Except PyErr Nat
  optim_load_state : Nat → Except PyErr Nat

/-- Lines 434-439: read the `epoch` entry of the bundle.  If present
(value E) the start epoch becomes E + 1, otherwise it stays 0. -/
def epochStep (ckpt : Checkpoint) (st : LoaderState) :
    LoaderState × Except PyErr Nat :=
  match ckpt.epoch with
  | some e => (st, .ok (e + 1))
  | none => (st, .ok 0)

/-- Lines 427-432: if an `optimizer_state_dict` entry exists, load it
into the optimizer (which may raise); if absent, only warn. -/
def optimStep (env : TorchEnv) (ckpt : Checkpoint) (st : LoaderState) :
    LoaderState × Except PyErr Nat :=
  match ckpt.optimizer_state_dict with
  | some osd =>
    match env.optim_load_state osd with
    | .error e => (st, .error e)
    | .ok o => epochStep ckpt { st with optim := o }
  | none => epochStep ckpt st

/-- Lines 420-425: if a `model_state_dict` entry exists, load it into
the model (which may raise, e.g. on shape mismatch); if absent, only
warn. -/
def modelStep (env : TorchEnv) (ckpt : Checkpoint) (st : LoaderState) :
    LoaderState × Except PyErr Nat :=
  match ckpt.model_state_dict with
  | some msd =>
    match env.model_load_state msd with
    | .error e => (st, .error e)
    | .ok m => optimStep env ckpt { st with model := m }
  | none => optimStep env ckpt st

/-- The body of the `try` block, lines 418-443.  A raised exception
aborts the body at the point it occurs: state mutations already
performed persist, later steps are not reached. -/
def tryLoadBody (env : TorchEnv) (path : String) (st : LoaderState) :
    LoaderState × Except PyErr Nat :=
  match env.torch_load path with
  | .error e => (st, .error e)
  | .ok ckpt => modelStep env ckpt st

/-- `load_checkpoint_for_resumption` (lines 399-453).  Returns the
final model/optimizer state together with `.ok start_epoch` on normal
return, or `.error e` for an exception that escapes to the caller.
The path argument is `none` for a falsy `checkpoint_path`;
`file_exists` models `os.path.exists`.  The `except Exception` clause
at line 445 catches every exception from the body, keeps whatever
state mutations already happened and resets the start epoch to 0. -/
def load_checkpoint_for_resumption (env : TorchEnv)
    (file_exists : String → Bool) (checkpoint_path : Option String)
    (st : LoaderState) : LoaderState × Except PyErr Nat :=
  match checkpoint_path with
  | some path =>
    if file_exists path then
      let r := tryLoadBody env path st
      (r.1, match r.2 with
            | .ok se => .ok se
            | .error _ => .ok 0)
    else (st, .ok 0)
  | none => (st, .ok 0)

/-- Helper: whenever the try body raises, the loader still returns
normally with start epoch 0 (the catch-all at lines 445-448). -/
theorem load_ok_zero_of_body_error (env : TorchEnv)
    (fs : String → Bool) (path : String) (st : LoaderState) (e : PyErr)
    (hfs : fs path = true)
    (hbody : (tryLoadBody env path st).2 = .error e) :
    (load_checkpoint_for_resumption env fs (some path) st).2 = .ok 0 := by
  unfold load_checkpoint_for_resumption
  simp only [hfs, if_true]
  rw [hbody]

/-- The record an invocation of the underlying checkpoint saver
receives: the file path and the epoch value passed to it (the epoch
value becomes the `epoch` field of the persisted bundle). -/
structure SaveRecord where
  path : String
  epoch : Option Nat
  deriving DecidableEq, Repr

/-- The type of the `save_checkpoint` bound method of the trainer. -/
abbrev SaveFn := String → Option Nat → SaveRecord

/-- The canonical saver, used in concrete instantiations: it persists
exactly the path and epoch it is given. -/
def record_save : SaveFn := fun p e => ⟨p, e⟩

/-- `os.path.join(dir, filename)` for a non-empty directory and a
relative filename, as used at line 489. -/
def path_join (d fname : String) : String := d ++ "/" ++ fname

/-- `adjusted_save_checkpoint` (lines 484-490), as a function of the
captured `self.current_epoch`, the `output_dir` of the wrapped trainer
(`none` models a falsy value) and the saved original saver.  A call
with epoch i (not None) shifts the epoch by `current_epoch`; when
`output_dir` is truthy the path is rebuilt as
`output_dir/checkpoint_epoch_<i+current_epoch>.pt`. -/
def adjusted_save_checkpoint (current_epoch : Nat)
    (output_dir : Option String) (original_save : SaveFn) : SaveFn :=
  fun path epoch =>
    match epoch with
    | none => original_save path none
    | some e =>
      let adjusted_epoch := e + current_epoch
      match output_dir with
      | some d =>
        original_save
          (path_join d
            (("checkpoint_epoch_" ++ toString adjusted_epoch) ++ (".pt")))
          (some adjusted_epoch)
      | none => original_save path (some adjusted_epoch)

/-- The result dictionary returned by a training run; the short-circuit
at line 476 returns both fields as 0.0. -/
structure TrainResult where
  final_loss : Rat
  training_time : Rat
  deriving DecidableEq, Repr

/-- The attributes of the wrapped trainer that `ResumeTrainer.train`
reads or writes: `num_epochs`, `output_dir` (an `Option` so that a
falsy value is `none`) and the `save_checkpoint` bound method. -/
structure TrainerState where
  num_epochs : Nat
  output_dir : Option String
  save_checkpoint : SaveFn

/-- The `ResumeTrainer` wrapper object: it holds the start epoch in its
`current_epoch` attribute (line 463). -/
structure ResumeTrainer where
  current_epoch : Nat
  deriving DecidableEq, Repr

/-- Oracle for the external generic trainer run (`self.trainer.train()`
at line 495).  Given the `num_epochs` value it sees, `outcome` is its
result or the exception it raises, and `calls` is the list of
arguments (path and epoch, epoch counted internally from 0) of the
`save_checkpoint` invocations it makes during the run, each of which
goes through whatever function is currently installed as
`save_checkpoint` on the trainer. -/
structure InnerTrain where
  outcome : Nat → Except PyErr TrainResult
  calls : Nat → List (String × Option Nat)

/-- `ResumeTrainer.train` (lines 465-501).  Returns the result (or the
propagated exception), the final attribute state of the wrapped
trainer, and the save records produced during the run.  Both epoch
counts are non-negative Python ints, so the `remaining_epochs <= 0`
test of line 473 coincides with truncated Nat subtraction hitting 0.
On the exception path the restore at lines 498-499 is never reached,
so the patched attributes stay. -/
def ResumeTrainer.train (inner : InnerTrain) (self : ResumeTrainer)
    (t : TrainerState) :
    Except PyErr TrainResult × TrainerState × List SaveRecord :=
  let original_num_epochs := t.num_epochs
  let remaining_epochs := original_num_epochs - self.current_epoch
  if remaining_epochs = 0 then
    (.ok ⟨0, 0⟩, t, [])
  else
    let original_save_checkpoint := t.save_checkpoint
    let patched : TrainerState :=
      { t with
        num_epochs := remaining_epochs,
        save_checkpoint :=
          adjusted_save_checkpoint self.current_epoch t.output_dir
            original_save_checkpoint }
    let performed :=
      (inner.calls patched.num_epochs).map
        (fun c => patched.save_checkpoint c.1 c.2)
    match inner.outcome patched.num_epochs with
    | .error e => (.error e, patched, performed)
    | .ok result =>
      (.ok result,
       { patched with
         num_epochs := original_num_epochs,
         save_checkpoint := original_save_checkpoint },
       performed)

/-- The final save dict built by `main` (lines 694-705), restricted to
the keys the loader later reads: it stores the current model and
optimizer states, and puts `config.num_epochs` in the `epoch` field
(line 697). -/
def main_final_checkpoint (model_state optim_state num_epochs : Nat) :
    Checkpoint :=
  { model_state_dict := some model_state,
    optimizer_state_dict := some optim_state,
    epoch := some num_epochs,
    loss := none }

/-- Claim C2: for every checkpoint bundle that loads successfully
(the bundle is read and any present model/optimizer state dicts load
without raising) and contains an epoch entry with value E,
`load_checkpoint_for_resumption` returns start epoch E + 1. -/
theorem loader_returns_epoch_succ (env : TorchEnv) (fs : String → Bool)
    (path : String) (st : LoaderState) (ckpt : Checkpoint) (E : Nat)
    (hfs : fs path = true)
    (hload : env.torch_load path = .ok ckpt)
    (hmodel : ∀ msd, ckpt.model_state_dict = some msd →
      ∃ m, env.model_load_state msd = .ok m)
    (hoptim : ∀ osd, ckpt.optimizer_state_dict = some osd →
      ∃ o, env.optim_load_state osd = .ok o)
    (hepoch : ckpt.epoch = some E) :
    (load_checkpoint_for_resumption env fs (some path) st).2 = .ok (E + 1) := by
  have hbody : ∀ s : LoaderState, (modelStep env ckpt s).2 = .ok (E + 1) := by
    intro s
    cases hms : ckpt.model_state_dict with
    | some msd =>
      obtain ⟨m, hm⟩ := hmodel msd hms
      cases hos : ckpt.optimizer_state_dict with
      | some osd =>
        obtain ⟨o, ho⟩ := hoptim osd hos
        simp [modelStep, optimStep, epochStep, hms, hm, hos, ho, hepoch]
      | none => simp [modelStep, optimStep, epochStep, hms, hm, hos, hepoch]
    | none =>
      cases hos : ckpt.optimizer_state_dict with
      | some osd =>
        obtain ⟨o, ho⟩ := hoptim osd hos
        simp [modelStep, optimStep, epochStep, hms, hos, ho, hepoch]
      | none => simp [modelStep, optimStep, epochStep, hms, hos, hepoch]
  unfold load_checkpoint_for_resumption tryLoadBody
  simp only [hfs, if_true, hload]
  rw [hbody st]

/-- Witness for C2 at a concrete bundle with epoch 4: the loader
returns start epoch 5. -/
theorem loader_returns_epoch_succ_witness :
    ((fun _ : String => true) ("c.pt") = true) ∧
    ((⟨fun _ => .ok ⟨some 7, some 8, some 4, none⟩, fun s => .ok s,
        fun s => .ok s⟩ : TorchEnv).torch_load ("c.pt") =
      .ok ⟨some 7, some 8, some 4, none⟩) ∧
    ((⟨some 7, some 8, some 4, none⟩ : Checkpoint).epoch = some 4) ∧
    (load_checkpoint_for_resumption
        ⟨fun _ => .ok ⟨some 7, some 8, some 4, none⟩, fun s => .ok s,
          fun s => .ok s⟩
        (fun _ => true) (some ("c.pt")) ⟨0, 0⟩).2 = .ok 5 :=
  ⟨rfl, rfl, rfl,
   loader_returns_epoch_succ
     ⟨fun _ => .ok ⟨some 7, some 8, some 4, none⟩, fun s => .ok s,
       fun s => .ok s⟩
     (fun _ => true) ("c.pt") ⟨0, 0⟩ ⟨some 7, some 8, some 4, none⟩ 4
     rfl rfl (fun msd _ => ⟨msd, rfl⟩) (fun osd _ => ⟨osd, rfl⟩) rfl⟩

/-- Claim C9: for every checkpoint bundle that is read successfully but
has no epoch entry, `load_checkpoint_for_resumption` returns start
epoch 0 (whatever the model/optimizer loads do). -/
theorem loader_no_epoch_zero (env : TorchEnv) (fs : String → Bool)
    (path : String) (st : LoaderState) (ckpt : Checkpoint)
    (hfs : fs path = true)
    (hload : env.torch_load path = .ok ckpt)
    (hepoch : ckpt.epoch = none) :
    (load_checkpoint_for_resumption env fs (some path) st).2 = .ok 0 := by
  unfold load_checkpoint_for_resumption tryLoadBody
  simp only [hfs, if_true, hload]
  cases hms : ckpt.model_state_dict with
  | some msd =>
    cases hm : env.model_load_state msd with
    | error e => simp [modelStep, hms, hm]
    | ok m =>
      cases hos : ckpt.optimizer_state_dict with
      | some osd =>
        cases ho : env.optim_load_state osd with
        | error e => simp [modelStep, optimStep, hms, hm, hos, ho]
        | ok o =>
          simp [modelStep, optimStep, epochStep, hms, hm, hos, ho, hepoch]
      | none => simp [modelStep, optimStep, epochStep, hms, hm, hos, hepoch]
  | none =>
    cases hos : ckpt.optimizer_state_dict with
    | some osd =>
      cases ho : env.optim_load_state osd with
      | error e => simp [modelStep, optimStep, hms, hos, ho]
      | ok o => simp [modelStep, optimStep, epochStep, hms, hos, ho, hepoch]
    | none => simp [modelStep, optimStep, epochStep, hms, hos, hepoch]

/-- Witness for C9 at a concrete bundle with no epoch entry. -/
theorem loader_no_epoch_zero_witness :
    ((fun _ : String => true) ("c.pt") = true) ∧
    ((⟨fun _ => .ok ⟨some 7, some 8, none, none⟩, fun s => .ok s,
        fun s => .ok s⟩ : TorchEnv).torch_load ("c.pt") =
      .ok ⟨some 7, some 8, none, none⟩) ∧
    ((⟨some 7, some 8, none, none⟩ : Checkpoint).epoch = none) ∧
    (load_checkpoint_for_resumption
        ⟨fun _ => .ok ⟨some 7, some 8, none, none⟩, fun s => .ok s,
          fun s => .ok s⟩
        (fun _ => true) (some ("c.pt")) ⟨0, 0⟩).2 = .ok 0 :=
  ⟨rfl, rfl, rfl,
   loader_no_epoch_zero
     ⟨fun _ => .ok ⟨some 7, some 8, none, none⟩, fun s => .ok s,
       fun s => .ok s⟩
     (fun _ => true) ("c.pt") ⟨0, 0⟩ ⟨some 7, some 8, none, none⟩
     rfl rfl rfl⟩

/-- Claim C8: for a checkpoint path that is falsy or does not exist on
disk, the loader returns start epoch 0 without raising and leaves the
model and optimizer state exactly as they were. -/
theorem loader_missing_path_no_change (env : TorchEnv)
    (fs : String → Bool) (cp : Option String) (st : LoaderState)
    (h : cp = none ∨ ∃ p, cp = some p ∧ fs p = false) :
    load_checkpoint_for_resumption env fs cp st = (st, .ok 0) := by
  rcases h with h | ⟨p, hp, hfs⟩
  · subst h; rfl
  · subst hp
    unfold load_checkpoint_for_resumption
    simp [hfs]

/-- Witness for C8 at a concrete missing file. -/
theorem loader_missing_path_no_change_witness :
    ((some ("missing.pt") : Option String) = none ∨
      ∃ p, (some ("missing.pt") : Option String) = some p ∧
        (fun _ : String => false) p = false) ∧
    load_checkpoint_for_resumption
      ⟨fun _ => .ok ⟨none, none, none, none⟩, fun s => .ok s,
        fun s => .ok s⟩
      (fun _ => false) (some ("missing.pt")) ⟨5, 6⟩ = (⟨5, 6⟩, .ok 0) :=
  ⟨Or.inr ⟨"missing.pt", rfl, rfl⟩,
   loader_missing_path_no_change
     ⟨fun _ => .ok ⟨none, none, none, none⟩, fun s => .ok s,
       fun s => .ok s⟩
     (fun _ => false) (some ("missing.pt")) ⟨5, 6⟩
     (Or.inr ⟨"missing.pt", rfl, rfl⟩)⟩

/-- Claim C5: for an existing checkpoint path, any exception raised
while reading the bundle, loading the model state, or loading the
optimizer state is caught inside `load_checkpoint_for_resumption`:
the function returns normally (an `.ok` value, never `.error`) with
start epoch 0. -/
theorem loader_catches_all_load_errors (env : TorchEnv)
    (fs : String → Bool) (path : String) (st : LoaderState)
    (hfs : fs path = true)
    (h : (∃ e, env.torch_load path = .error e) ∨
         (∃ ckpt msd e, env.torch_load path = .ok ckpt ∧
            ckpt.model_state_dict = some msd ∧
            env.model_load_state msd = .error e) ∨
         (∃ ckpt osd e, env.torch_load path = .ok ckpt ∧
            ckpt.optimizer_state_dict = some osd ∧
            env.optim_load_state osd = .error e)) :
    (load_checkpoint_for_resumption env fs (some path) st).2 = .ok 0 := by
  rcases h with ⟨e, he⟩ | ⟨ckpt, msd, e, hload, hms, hm⟩ |
    ⟨ckpt, osd, e, hload, hos, ho⟩
  · exact load_ok_zero_of_body_error env fs path st e hfs
      (by simp [tryLoadBody, he])
  · exact load_ok_zero_of_body_error env fs path st e hfs
      (by simp [tryLoadBody, hload, modelStep, hms, hm])
  · cases hms : ckpt.model_state_dict with
    | some msd =>
      cases hm : env.model_load_state msd with
      | error e2 =>
        exact load_ok_zero_of_body_error env fs path st e2 hfs
          (by simp [tryLoadBody, hload, modelStep, hms, hm])
      | ok m =>
        exact load_ok_zero_of_body_error env fs path st e hfs
          (by simp [tryLoadBody, hload, modelStep, optimStep, hms, hm,
            hos, ho])
    | none =>
      exact load_ok_zero_of_body_error env fs path st e hfs
        (by simp [tryLoadBody, hload, modelStep, optimStep, hms, hos, ho])

/-- Witness for C5 at a concrete corrupt file: `torch.load` raises and
the loader still returns start epoch 0. -/
theorem loader_catches_all_load_errors_witness :
    ((fun _ : String => true) ("bad.pt") = true) ∧
    (∃ e, (⟨fun _ => .error (.other ("corrupt")), fun s => .ok s,
        fun s => .ok s⟩ : TorchEnv).torch_load ("bad.pt") = .error e) ∧
    (load_checkpoint_for_resumption
        ⟨fun _ => .error (.other ("corrupt")), fun s => .ok s,
          fun s => .ok s⟩
        (fun _ => true) (some ("bad.pt")) ⟨0, 0⟩).2 = .ok 0 :=
  ⟨rfl, ⟨.other ("corrupt"), rfl⟩,
   loader_catches_all_load_errors
     ⟨fun _ => .error (.other ("corrupt")), fun s => .ok s,
       fun s => .ok s⟩
     (fun _ => true) ("bad.pt") ⟨0, 0⟩ rfl
     (Or.inl ⟨.other ("corrupt"), rfl⟩)⟩

/-- A torch environment in which `torch.load` succeeds but loading the
model state raises a shape mismatch. -/
def shapeEnv : TorchEnv :=
  { torch_load := fun _ => .ok ⟨some 7, none, some 3, none⟩,
    model_load_state := fun _ => .error .shapeMismatch,
    optim_load_state := fun s => .ok s }

/-- Counterexample to claim C4 as stated: with an existing file whose
bundle has a model-state entry whose load raises a shape mismatch, the
exception does NOT propagate out of `load_checkpoint_for_resumption`
and the run is not aborted: the catch-all at line 445 swallows it and
the function returns normally with start epoch 0. -/
theorem shape_mismatch_propagates_cex :
    load_checkpoint_for_resumption shapeEnv (fun _ => true)
      (some ("ckpt.pt")) ⟨0, 0⟩ = (⟨0, 0⟩, .ok 0) ∧
    ∀ e, (load_checkpoint_for_resumption shapeEnv (fun _ => true)
      (some ("ckpt.pt")) ⟨0, 0⟩).2 ≠ .error e := by
  refine ⟨rfl, ?_⟩
  intro e h
  simp [load_checkpoint_for_resumption, tryLoadBody, modelStep,
    shapeEnv] at h

/-- Claim C4 (amended): if the file exists and the bundle has a
model-state entry whose load raises a shape mismatch, the error is
caught inside `load_checkpoint_for_resumption`; the function returns
start epoch 0 and the model/optimizer state is unchanged. -/
theorem shape_mismatch_caught (env : TorchEnv) (fs : String → Bool)
    (path : String) (st : LoaderState) (ckpt : Checkpoint) (msd : Nat)
    (hfs : fs path = true)
    (hload : env.torch_load path = .ok ckpt)
    (hms : ckpt.model_state_dict = some msd)
    (hfail : env.model_load_state msd = .error .shapeMismatch) :
    load_checkpoint_for_resumption env fs (some path) st = (st, .ok 0) := by
  unfold load_checkpoint_for_resumption
  simp [hfs, tryLoadBody, hload, modelStep, hms, hfail]

/-- Witness for the amended C4 in the shape-mismatch environment. -/
theorem shape_mismatch_caught_witness :
    ((fun _ : String => true) ("ckpt.pt") = true) ∧
    (shapeEnv.torch_load ("ckpt.pt") = .ok ⟨some 7, none, some 3, none⟩) ∧
    ((⟨some 7, none, some 3, none⟩ : Checkpoint).model_state_dict =
      some 7) ∧
    (shapeEnv.model_load_state 7 = .error .shapeMismatch) ∧
    load_checkpoint_for_resumption shapeEnv (fun _ => true)
      (some ("ckpt.pt")) ⟨0, 0⟩ = (⟨0, 0⟩, .ok 0) :=
  ⟨rfl, rfl, rfl, rfl,
   shape_mismatch_caught shapeEnv (fun _ => true) ("ckpt.pt") ⟨0, 0⟩
     ⟨some 7, none, some 3, none⟩ 7 rfl rfl rfl rfl⟩

/-- Claim C1: for a `ResumeTrainer` with `current_epoch = S` over a
trainer configured with `num_epochs = T` and a truthy output
directory, with T > S, `train` invokes the wrapped run with
`num_epochs` set to exactly T - S (its result and checkpoint calls are
those of the run at T - S), and every checkpoint the inner trainer
saves with internal epoch index i goes through the installed
`adjusted_save_checkpoint`, which hands the original saver the
filename `checkpoint_epoch_<i+S>.pt` under the output directory and
the epoch value i + S. -/
theorem resume_train_offsets_epochs (inner : InnerTrain)
    (rt : ResumeTrainer) (t : TrainerState) (d : String)
    (hS : rt.current_epoch < t.num_epochs)
    (hd : t.output_dir = some d) :
    (ResumeTrainer.train inner rt t).1 =
      inner.outcome (t.num_epochs - rt.current_epoch) ∧
    (ResumeTrainer.train inner rt t).2.2 =
      (inner.calls (t.num_epochs - rt.current_epoch)).map
        (fun c =>
          adjusted_save_checkpoint rt.current_epoch t.output_dir
            t.save_checkpoint c.1 c.2) ∧
    (∀ p i,
      adjusted_save_checkpoint rt.current_epoch t.output_dir
          t.save_checkpoint p (some i) =
        t.save_checkpoint
          (path_join d
            (("checkpoint_epoch_" ++ toString (i + rt.current_epoch))
              ++ (".pt")))
          (some (i + rt.current_epoch))) := by
  have hrem : ¬ t.num_epochs - rt.current_epoch = 0 :=
    Nat.sub_ne_zero_of_lt hS
  refine ⟨?_, ?_, ?_⟩
  · unfold ResumeTrainer.train
    simp only [if_neg hrem]
    cases h : inner.outcome (t.num_epochs - rt.current_epoch) <;> simp [h]
  · unfold ResumeTrainer.train
    simp only [if_neg hrem]
    cases h : inner.outcome (t.num_epochs - rt.current_epoch) <;> simp [h]
  · intro p i
    simp [adjusted_save_checkpoint, hd]

/-- A concrete inner-trainer behaviour: the run succeeds and makes two
checkpoint calls, for internal epochs 0 and 1. -/
def wInner : InnerTrain :=
  { outcome := fun _ => .ok ⟨1, 2⟩,
    calls := fun _ => [(("inner0.pt"), some 0), (("inner1.pt"), some 1)] }

/-- Witness for C1 with S = 3, T = 5: the run is invoked at 2 remaining
epochs and internal epoch i is saved as epoch i + 3. -/
theorem resume_train_offsets_epochs_witness :
    ((⟨3⟩ : ResumeTrainer).current_epoch <
      (⟨5, some ("out"), record_save⟩ : TrainerState).num_epochs) ∧
    ((⟨5, some ("out"), record_save⟩ : TrainerState).output_dir =
      some ("out")) ∧
    ((ResumeTrainer.train wInner ⟨3⟩ ⟨5, some ("out"), record_save⟩).1 =
      wInner.outcome 2 ∧
     (ResumeTrainer.train wInner ⟨3⟩ ⟨5, some ("out"), record_save⟩).2.2 =
      (wInner.calls 2).map
        (fun c =>
          adjusted_save_checkpoint 3 (some ("out")) record_save c.1 c.2) ∧
     (∀ p i,
       adjusted_save_checkpoint 3 (some ("out")) record_save p (some i) =
         record_save
           (path_join ("out")
             (("checkpoint_epoch_" ++ toString (i + 3)) ++ (".pt")))
           (some (i + 3)))) :=
  ⟨by decide, rfl,
   resume_train_offsets_epochs wInner ⟨3⟩ ⟨5, some ("out"), record_save⟩
     ("out") (by decide) rfl⟩

/-- Claim C3: when `current_epoch` is at least the configured
`num_epochs`, `train` short-circuits: it returns the zero result
dictionary, leaves every attribute of the wrapped trainer untouched,
performs no checkpoint saves, and never consults the inner run
(the universally quantified `inner` does not occur on the right). -/
theorem resume_train_short_circuit (inner : InnerTrain)
    (rt : ResumeTrainer) (t : TrainerState)
    (h : t.num_epochs ≤ rt.current_epoch) :
    ResumeTrainer.train inner rt t = (.ok ⟨0, 0⟩, t, []) := by
  unfold ResumeTrainer.train
  simp [Nat.sub_eq_zero_of_le h]

/-- Witness for C3 with T = 7 and S = 9. -/
theorem resume_train_short_circuit_witness :
    ((⟨7, none, record_save⟩ : TrainerState).num_epochs ≤
      (⟨9⟩ : ResumeTrainer).current_epoch) ∧
    ResumeTrainer.train wInner ⟨9⟩ ⟨7, none, record_save⟩ =
      (.ok ⟨0, 0⟩, ⟨7, none, record_save⟩, []) :=
  ⟨by decide,
   resume_train_short_circuit wInner ⟨9⟩ ⟨7, none, record_save⟩
     (by decide)⟩

/-- Claim C7: whenever `train` returns normally (short-circuit or full
run), the wrapped trainer ends with its original `num_epochs` and
`save_checkpoint`, and on the full-run path the returned result is
exactly the result of the wrapped run. -/
theorem resume_train_restores_trainer (inner : InnerTrain)
    (rt : ResumeTrainer) (t : TrainerState) (r : TrainResult)
    (h : (ResumeTrainer.train inner rt t).1 = .ok r) :
    (ResumeTrainer.train inner rt t).2.1.num_epochs = t.num_epochs ∧
    (ResumeTrainer.train inner rt t).2.1.save_checkpoint =
      t.save_checkpoint ∧
    (rt.current_epoch < t.num_epochs →
      inner.outcome (t.num_epochs - rt.current_epoch) = .ok r) := by
  by_cases hrem : t.num_epochs - rt.current_epoch = 0
  · have hnlt : ¬ rt.current_epoch < t.num_epochs := by
      intro hlt
      exact Nat.sub_ne_zero_of_lt hlt hrem
    unfold ResumeTrainer.train
    simp [hrem, hnlt]
  · cases ho : inner.outcome (t.num_epochs - rt.current_epoch) with
    | error e =>
      exfalso
      unfold ResumeTrainer.train at h
      simp [hrem, ho] at h
    | ok r2 =>
      have hr : r2 = r := by
        unfold ResumeTrainer.train at h
        simpa [hrem, ho] using h
      subst hr
      unfold ResumeTrainer.train
      simp [hrem, ho]

/-- Witness for C7 with S = 3, T = 5 and a successful run. -/
theorem resume_train_restores_trainer_witness :
    ((ResumeTrainer.train wInner ⟨3⟩ ⟨5, some ("out"), record_save⟩).1 =
      .ok ⟨1, 2⟩) ∧
    ((ResumeTrainer.train wInner ⟨3⟩
        ⟨5, some ("out"), record_save⟩).2.1.num_epochs = 5 ∧
     (ResumeTrainer.train wInner ⟨3⟩
        ⟨5, some ("out"), record_save⟩).2.1.save_checkpoint =
       record_save ∧
     (3 < 5 → wInner.outcome 2 = .ok ⟨1, 2⟩)) :=
  ⟨rfl,
   resume_train_restores_trainer wInner ⟨3⟩ ⟨5, some ("out"), record_save⟩
     ⟨1, 2⟩ rfl⟩

/-- A concrete inner-trainer behaviour whose run raises. -/
def wErrInner : InnerTrain :=
  { outcome := fun _ => .error (.other ("boom")),
    calls := fun _ => [] }

/-- Claim C10: if the wrapped run raises while remaining epochs are
positive, the exception propagates out of `train` and the wrapped
trainer is left with the patched `num_epochs` (the remaining count)
and the patched `save_checkpoint`: the restore is skipped on the
exception path. -/
theorem resume_train_error_path_leaves_patch (inner : InnerTrain)
    (rt : ResumeTrainer) (t : TrainerState) (e : PyErr)
    (h1 : rt.current_epoch < t.num_epochs)
    (h2 : inner.outcome (t.num_epochs - rt.current_epoch) = .error e) :
    (ResumeTrainer.train inner rt t).1 = .error e ∧
    (ResumeTrainer.train inner rt t).2.1.num_epochs =
      t.num_epochs - rt.current_epoch ∧
    (ResumeTrainer.train inner rt t).2.1.save_checkpoint =
      adjusted_save_checkpoint rt.current_epoch t.output_dir
        t.save_checkpoint := by
  have hrem : ¬ t.num_epochs - rt.current_epoch = 0 :=
    Nat.sub_ne_zero_of_lt h1
  unfold ResumeTrainer.train
  simp [hrem, h2]

/-- Witness for C10 with S = 3, T = 5 and a raising run. -/
theorem resume_train_error_path_leaves_patch_witness :
    ((⟨3⟩ : ResumeTrainer).current_epoch <
      (⟨5, some ("out"), record_save⟩ : TrainerState).num_epochs) ∧
    (wErrInner.outcome 2 = .error (.other ("boom"))) ∧
    ((ResumeTrainer.train wErrInner ⟨3⟩
        ⟨5, some ("out"), record_save⟩).1 = .error (.other ("boom")) ∧
     (ResumeTrainer.train wErrInner ⟨3⟩
        ⟨5, some ("out"), record_save⟩).2.1.num_epochs = 2 ∧
     (ResumeTrainer.train wErrInner ⟨3⟩
        ⟨5, some ("out"), record_save⟩).2.1.save_checkpoint =
       adjusted_save_checkpoint 3 (some ("out")) record_save) :=
  ⟨by decide, rfl,
   resume_train_error_path_leaves_patch wErrInner ⟨3⟩
     ⟨5, some ("out"), record_save⟩ (.other ("boom")) (by decide) rfl⟩

/-- Claim C6 (violated by the final save in `main`): in a fresh run
with `config.num_epochs = 5` the last completed epoch has index 4, and
the per-epoch checkpoints written through the wrapper label it 4; but
the final bundle built at line 697 stores epoch = 5, so resuming from
it yields start epoch 6 instead of the 4 + 1 = 5 the invariant
requires. -/
theorem final_checkpoint_epoch_off_by_one :
    (main_final_checkpoint 17 23 5).epoch = some 5 ∧
    adjusted_save_checkpoint 0 (some ("out")) record_save ("raw.pt")
      (some 4) = ⟨"out/checkpoint_epoch_4.pt", some 4⟩ ∧
    (load_checkpoint_for_resumption
        ⟨fun _ => .ok (main_final_checkpoint 17 23 5), fun s => .ok s,
          fun s => .ok s⟩
        (fun _ => true) (some ("final_model.pt")) ⟨0, 0⟩).2 = .ok 6 ∧
    (6 : Nat) ≠ 4 + 1 :=
  ⟨rfl, rfl, rfl, by decide⟩
